import Mathlib

/-!
Shallow embedding of the Deployment & Authentication Orchestrator of the
`agent_builder_application` repository
(`specs/004-TODO-Features/agent_builder_platform.py`,
`specs/006-cognito-identity/unified_auth.py`,
`specs/006-cognito-identity/aws_auth_handler.py`,
`specs/006-cognito-identity/deployment_executor.py`), together with theorems
settling the frozen specification claims about it.

Python dictionaries whose shape is fixed by the code are embedded as
structures; Python exceptions are embedded as an explicit `PyExc` type with
`Except` results; the process-wide effects of the sandbox paths (current
working directory, external calls to the container runtime / CLI) are embedded
as an explicit `World` state threaded through each step, so that an exception
escaping a function still leaves the observable world state behind.
-/

namespace AgentBuilder

/-- Python exceptions that the embedded code can raise or catch. The
distinction that matters to the code is which `except` clauses match:
`agent_builder_platform.test_with_ollama_docker` catches every exception,
`test_with_agentcore` catches only `subprocess.CalledProcessError`, and
`aws_auth_handler.poll_for_aws_token` catches only `botocore` `ClientError`. -/
inductive PyExc where
  | keyError (key : String)
  | calledProcessError (cmd : String)
  | fileNotFoundError (msg : String)
  | clientError (code : String) (msg : String)
  | osError (msg : String)
  | dockerError (msg : String)
  deriving DecidableEq, Repr

/-- Python `str(e)` used when the code interpolates a caught exception. -/
def PyExc.str : PyExc → String
  | .keyError k => k
  | .calledProcessError c => "Command " ++ c ++ " returned non-zero exit status"
  | .fileNotFoundError m => m
  | .clientError c m => "An error occurred (" ++ c ++ "): " ++ m
  | .osError m => m
  | .dockerError m => m

/-! ## Agent Configuration Builder
`AgentBuilderPlatform.create_agent_config` (agent_builder_platform.py lines
17-28) builds the agent-config dict by direct `user_config[...]` indexing. -/

/-- Raw user configuration mapping: each recognized key is present (`some`)
or absent (`none`), as in a Python dict restricted to the keys the code
reads. -/
structure RawConfig where
  agent_name : Option String
  system_prompt : Option String
  tools : Option (List String)
  model_type : Option String
  model_id : Option String
  user_id : Option String
  deriving DecidableEq, Repr

/-- The canonical agent-config dict produced by `create_agent_config`. -/
structure AgentConfig where
  name : String
  system_prompt : String
  tools : List String
  model_type : String
  model_id : String
  user_id : String
  deriving DecidableEq, Repr

/-- Python `d[k]`: raises `KeyError` when the key is absent. -/
def getItem (v : Option α) (key : String) : Except PyExc α :=
  match v with
  | some x => .ok x
  | none => .error (.keyError key)

/-- `AgentBuilderPlatform.create_agent_config`: builds the agent-config dict
field by field, in the order the dict literal evaluates its entries; a missing
required key raises `KeyError` (there is no validation branch), and
`tools` falls back to `[]` via `.get`. -/
def create_agent_config (user_config : RawConfig) : Except PyExc AgentConfig :=
  match getItem user_config.agent_name "agent_name" with
  | .error e => .error e
  | .ok name =>
    match getItem user_config.system_prompt "system_prompt" with
    | .error e => .error e
    | .ok sp =>
      match getItem user_config.model_type "model_type" with
      | .error e => .error e
      | .ok mt =>
        match getItem user_config.model_id "model_id" with
        | .error e => .error e
        | .ok mid =>
          match getItem user_config.user_id "user_id" with
          | .error e => .error e
          | .ok uid =>
            .ok { name := name, system_prompt := sp, tools := user_config.tools.getD [],
                  model_type := mt, model_id := mid, user_id := uid }

/-! ## Device-code driver polling
`AWSAuthHandler.poll_for_aws_token` (aws_auth_handler.py lines 41-61). The
identity provider's reaction to the `create_token` call is the input: a
granted token, a provider-side error response (surfacing as a botocore
`ClientError` with an error code), or a transport-level fault that is not a
`ClientError`. -/

/-- Outcome of the provider's `create_token` endpoint for one poll. -/
inductive CreateTokenResponse where
  | granted (accessToken tokenType : String) (expiresIn : Nat)
  | providerError (code : String) (msg : String)
  | transportFault (msg : String)
  deriving DecidableEq, Repr

/-- The dict returned by `poll_for_aws_token` on each of its return paths. -/
inductive PollOut where
  | token (access_token token_type : String) (expires_in : Nat)
  | pending
  | err (msg : String)
  deriving DecidableEq, Repr

/-- `AWSAuthHandler.poll_for_aws_token`: calls `create_token`; a granted token
returns the token dict; a `ClientError` is caught and mapped to
`{"status": "pending"}` when its code is `AuthorizationPendingException`, to
`{"error": str(e)}` otherwise; a non-`ClientError` fault propagates uncaught. -/
def poll_for_aws_token (resp : CreateTokenResponse) : Except PyExc PollOut :=
  match resp with
  | .granted a t e => .ok (.token a t e)
  | .providerError code msg =>
      if code = "AuthorizationPendingException" then .ok .pending
      else .ok (.err (PyExc.str (.clientError code msg)))
  | .transportFault m => .error (.osError m)

/-- The result dict of one sandbox test: the success shape
`{"success": True, "response": ..., "test_environment": ..., "model": ...}`
or the failure shape `{"error": ...}`. -/
inductive TestResult where
  | ok (response : String) (test_environment : String) (model : String)
  | err (msg : String)
  deriving DecidableEq, Repr

/-! ## Sandbox Test Dispatcher
`AgentBuilderPlatform.test_agent` and its two backend paths
(agent_builder_platform.py lines 30-137). The observable effects on the
process and the external collaborators (filesystem setup, Docker build/run,
`os.chdir`, `subprocess.run`) are recorded in a `World`: the process-wide
current working directory plus the ordered trace of external actions
attempted. The environment (`SandboxEnv`) fixes how each external collaborator
reacts. -/

/-- One attempted external action, with the flags the code passes. -/
inductive Action where
  | makedirs (dir : String)
  | writeFile (path : String)
  | buildImage (tag : String) (rm : Bool)
  | runContainer (image : String) (command : String) (remove : Bool)
  | waitContainer
  | containerLogs
  | removeImage (tag : String)
  | removeContainer
  | chdir (dir : String)
  | subprocessRun (cmd : List String)
  deriving DecidableEq, Repr

/-- Process-visible state: the process-wide working directory and the trace of
external actions attempted so far. -/
structure World where
  cwd : String
  trace : List Action
  deriving DecidableEq, Repr

/-- Append an attempted action to the trace. -/
def World.log (w : World) (a : Action) : World :=
  { w with trace := w.trace ++ [a] }

/-- How each external collaborator reacts: `none` means the call succeeds,
`some e` means it raises `e`. `runCmdResult` is `subprocess.run` with
`check=True`: `.ok` carries the captured stdout, `.error` the raised
exception (`CalledProcessError` for a non-zero exit, or another exception such
as `FileNotFoundError` when the binary is missing). -/
structure SandboxEnv where
  makedirsResult : String → Option PyExc
  writeResult : String → Option PyExc
  buildResult : Option PyExc
  runResult : Option PyExc
  waitResult : Option PyExc
  logsResult : Except PyExc String
  chdirResult : Option PyExc
  runCmdResult : List String → Except PyExc String

/-- Sequencing of embedded statements: on an exception the remaining
statements are skipped but the world state reached so far is kept (a Python
exception does not roll back side effects). -/
def andThen (x : Except PyExc α × World) (f : α → World → Except PyExc β × World) :
    Except PyExc β × World :=
  match x with
  | (.ok a, w) => f a w
  | (.error e, w) => (.error e, w)

/-- An external call returning no value: logs the attempt, then succeeds or
raises according to the environment. -/
def opUnit (res : Option PyExc) (a : Action) (w : World) : Except PyExc Unit × World :=
  (match res with | none => .ok () | some e => .error e, w.log a)

/-- `os.chdir`: on success the process-wide working directory changes. -/
def opChdir (res : Option PyExc) (dir : String) (w : World) : Except PyExc Unit × World :=
  match res with
  | none => (.ok (), { cwd := dir, trace := w.trace ++ [.chdir dir] })
  | some e => (.error e, w.log (.chdir dir))

/-- `container.logs()`: logs the attempt and returns the captured output. -/
def opLogs (res : Except PyExc String) (w : World) : Except PyExc String × World :=
  (res, w.log .containerLogs)

/-- `subprocess.run(cmd, check=True)`. -/
def opRun (env : SandboxEnv) (cmd : List String) (w : World) : Except PyExc String × World :=
  (env.runCmdResult cmd, w.log (.subprocessRun cmd))

/-- The scratch directory `/tmp/agent_test_{user_id}` of the container path. -/
def ollamaTestDir (cfg : AgentConfig) : String := "/tmp/agent_test_" ++ cfg.user_id

/-- The image tag `agent-test-{user_id}` of the container path. -/
def ollamaImageName (cfg : AgentConfig) : String := "agent-test-" ++ cfg.user_id

/-- The `try` block of `test_with_ollama_docker` (lines 41-85): scratch-dir
setup, image build with `rm=True`, detached container run with `remove=True`,
wait, logs, then the success dict. No step removes the built image or the
container itself: teardown is delegated entirely to the flags passed at build
and run time. -/
def ollama_docker_body (env : SandboxEnv) (cfg : AgentConfig) (test_prompt : String)
    (w : World) : Except PyExc TestResult × World :=
  andThen (opUnit (env.makedirsResult (ollamaTestDir cfg)) (.makedirs (ollamaTestDir cfg)) w) fun _ w =>
  andThen (opUnit (env.writeResult (ollamaTestDir cfg ++ "/test_agent.py"))
      (.writeFile (ollamaTestDir cfg ++ "/test_agent.py")) w) fun _ w =>
  andThen (opUnit (env.writeResult (ollamaTestDir cfg ++ "/Dockerfile"))
      (.writeFile (ollamaTestDir cfg ++ "/Dockerfile")) w) fun _ w =>
  andThen (opUnit env.buildResult (.buildImage (ollamaImageName cfg) true) w) fun _ w =>
  andThen (opUnit env.runResult
      (.runContainer (ollamaImageName cfg)
        ("python test_agent.py \"" ++ test_prompt ++ "\"") true) w) fun _ w =>
  andThen (opUnit env.waitResult .waitContainer w) fun _ w =>
  andThen (opLogs env.logsResult w) fun logs w =>
  (.ok (.ok logs "ollama_docker" cfg.model_id), w)

/-- `AgentBuilderPlatform.test_with_ollama_docker`: the whole body is wrapped
in `try ... except Exception`, so every exception is converted to the
`{"error": "Ollama testing failed: ..."}` dict and nothing escapes. -/
def test_with_ollama_docker (env : SandboxEnv) (cfg : AgentConfig) (test_prompt : String)
    (w : World) : TestResult × World :=
  match ollama_docker_body env cfg test_prompt w with
  | (.ok r, w) => (r, w)
  | (.error e, w) => (.err ("Ollama testing failed: " ++ e.str), w)

/-- The scratch directory `/tmp/agentcore_test_{user_id}` of the managed path. -/
def agentcoreTestDir (cfg : AgentConfig) : String := "/tmp/agentcore_test_" ++ cfg.user_id

/-- The `try` block of `test_with_agentcore` (lines 93-130): scratch-dir
setup, `os.chdir` into it (never undone), then the three CLI steps
configure, launch, invoke, each with `check=True`. -/
def agentcore_body (env : SandboxEnv) (cfg : AgentConfig) (test_prompt : String)
    (w : World) : Except PyExc TestResult × World :=
  andThen (opUnit (env.makedirsResult (agentcoreTestDir cfg)) (.makedirs (agentcoreTestDir cfg)) w) fun _ w =>
  andThen (opUnit (env.writeResult (agentcoreTestDir cfg ++ "/test_agent.py"))
      (.writeFile (agentcoreTestDir cfg ++ "/test_agent.py")) w) fun _ w =>
  andThen (opUnit (env.writeResult (agentcoreTestDir cfg ++ "/requirements.txt"))
      (.writeFile (agentcoreTestDir cfg ++ "/requirements.txt")) w) fun _ w =>
  andThen (opChdir env.chdirResult (agentcoreTestDir cfg) w) fun _ w =>
  andThen (opRun env ["agentcore", "configure", "--entrypoint", "test_agent.py",
      "--name", "test-" ++ cfg.user_id ++ "-" ++ cfg.name] w) fun _ w =>
  andThen (opRun env ["agentcore", "launch"] w) fun _ w =>
  andThen (opRun env ["agentcore", "invoke", "--prompt", test_prompt] w) fun out w =>
  (.ok (.ok out "agentcore_sandbox" cfg.model_id), w)

/-- `AgentBuilderPlatform.test_with_agentcore`: the body is wrapped in
`try ... except subprocess.CalledProcessError` only, so a non-zero CLI exit is
converted to the `{"error": "AgentCore testing failed: ..."}` dict while any
other exception propagates to the caller. -/
def test_with_agentcore (env : SandboxEnv) (cfg : AgentConfig) (test_prompt : String)
    (w : World) : Except PyExc TestResult × World :=
  match agentcore_body env cfg test_prompt w with
  | (.ok r, w) => (.ok r, w)
  | (.error e, w) =>
      match e with
      | .calledProcessError c =>
          (.ok (.err ("AgentCore testing failed: " ++ PyExc.str (.calledProcessError c))), w)
      | e => (.error e, w)

/-- `AgentBuilderPlatform.test_agent`: routes on `model_type`, returning the
`{"error": "Unsupported model type"}` dict for any unrecognized value without
touching the world. -/
def test_agent (env : SandboxEnv) (cfg : AgentConfig) (test_prompt : String)
    (w : World) : Except PyExc TestResult × World :=
  if cfg.model_type = "ollama" then
    (.ok (test_with_ollama_docker env cfg test_prompt w).1,
     (test_with_ollama_docker env cfg test_prompt w).2)
  else if cfg.model_type = "bedrock" then
    test_with_agentcore env cfg test_prompt w
  else
    (.ok (.err "Unsupported model type"), w)

/-- Removal actions: explicit image or container removal. The code contains
no call producing one. -/
def Action.isRemoval : Action → Bool
  | .removeImage _ => true
  | .removeContainer => true
  | _ => false

/-- An action that delegates teardown wrongly: a build without the
intermediate-container-removal flag or a run without the auto-remove flag. -/
def Action.violatesTeardownFlags : Action → Bool
  | .buildImage _ rm => !rm
  | .runContainer _ _ remove => !remove
  | _ => false

/-! ## Unified Authentication Router
`UnifiedAuthHandler` (unified_auth.py). The mutable state is the
`self.user_sessions` dict, keyed by session id. The source never defines the
`complete_aws_sso` / `complete_cognito` methods that
`complete_authentication` dispatches to, so the session-store writes and the
per-session `authState` of the spec's `DeploymentSession` are modelled from
the spec; everything else follows the source. Association lists stand in for
Python dicts, with the most recent binding shadowing earlier ones. -/

/-- Lookup in an association list (first binding wins). -/
def alookup (l : List (String × α)) (sid : String) : Option α :=
  match l with
  | [] => none
  | (k, v) :: t => if k = sid then some v else alookup t sid

/-- Update in an association list by shadowing. -/
def aset (l : List (String × α)) (sid : String) (v : α) : List (String × α) :=
  (sid, v) :: l

/-- The spec's per-session `DeploymentSession.authState` values. -/
inductive AuthState where
  | unauthenticated
  | pending
  | authenticated
  | failed
  deriving DecidableEq, Repr

/-- The token bundle stored for an authenticated session. -/
structure Credentials where
  access_token : String
  token_type : String
  expires_in : Nat
  deriving DecidableEq, Repr

/-- The authenticated principal. -/
structure Principal where
  user_id : String
  email : String
  deriving DecidableEq, Repr

/-- One entry of the `user_sessions` dict: the auth type tag the dispatching
code branches on (`"aws_sso"` or `"cognito"`), plus the stored credentials
and principal. -/
structure UserAuth where
  type : String
  credentials : Credentials
  principal : Principal
  deriving DecidableEq, Repr

/-- Router state: the source's `self.user_sessions` dict, plus the
per-session `authState` map modelled from the spec (the source keeps no
explicit state field; `authState` is the spec's view of where each session
stands in the state machine). -/
structure RouterState where
  user_sessions : List (String × UserAuth)
  auth_states : List (String × AuthState)
  deriving DecidableEq, Repr

/-- The authState of a session id, defaulting to `UNAUTHENTICATED` when the
session id has never been seen. -/
def stOf (l : List (String × AuthState)) (sid : String) : AuthState :=
  (alookup l sid).getD .unauthenticated

/-- The authState of a session id in a router state. -/
def stateOf (st : RouterState) (sid : String) : AuthState :=
  stOf st.auth_states sid

/-- The identity driver's decision for the evidence submitted on completion:
a granted token with its principal, a still-pending authorization, or a
denial/error. -/
inductive DriverOutcome where
  | granted (credentials : Credentials) (principal : Principal)
  | pending
  | denied (reason : String)
  deriving DecidableEq, Repr

/-- The structured value `completeAuth` hands back to the caller. -/
inductive CompleteOut where
  | authenticated (credentials : Credentials) (principal : Principal)
  | pending
  | failed (reason : String)
  deriving DecidableEq, Repr

/-- Modelled from the spec: the bodies of `complete_aws_sso` and
`complete_cognito`, which `UnifiedAuthHandler.complete_authentication`
dispatches to, are not defined under `src`. Per the spec's `completeAuth`
contract and per-session state machine: from `PENDING`, a granted token
transitions the session to `AUTHENTICATED` and stores credentials and
principal in the session store; a denied/error outcome transitions the
session to `FAILED` (no credentials are stored); a pending outcome changes
nothing. The state machine has completion edges only from `PENDING`, so from
any other state nothing changes. The driver's typed result is returned to
the caller in every case. -/
def completeDriver (ty : String) (st : RouterState) (sid : String)
    (outcome : DriverOutcome) : RouterState × CompleteOut :=
  match outcome with
  | .granted c p =>
      (if stateOf st sid = .pending then
         { user_sessions := aset st.user_sessions sid ⟨ty, c, p⟩,
           auth_states := aset st.auth_states sid .authenticated }
       else st,
       .authenticated c p)
  | .pending => (st, .pending)
  | .denied r =>
      (if stateOf st sid = .pending then
         { st with auth_states := aset st.auth_states sid .failed }
       else st,
       .failed r)

/-- Modelled from the spec: the device-code completion (`complete_aws_sso`),
missing from `src`; see `completeDriver`. -/
def complete_aws_sso (st : RouterState) (sid : String) (outcome : DriverOutcome) :
    RouterState × CompleteOut :=
  completeDriver "aws_sso" st sid outcome

/-- Modelled from the spec: the authorization-code completion
(`complete_cognito`), missing from `src`; see `completeDriver`. -/
def complete_cognito (st : RouterState) (sid : String) (outcome : DriverOutcome) :
    RouterState × CompleteOut :=
  completeDriver "cognito" st sid outcome

/-- `UnifiedAuthHandler.complete_authentication` (unified_auth.py lines
43-52): dispatches on `auth_type` to the matching completion; any other
`auth_type` falls off the end of the function, which in Python returns `None`
with no state change. The identity provider's decision for the submitted
evidence (`auth_code`) enters as the `outcome` parameter. -/
def complete_authentication (st : RouterState) (sid : String)
    (outcome : DriverOutcome) (auth_type : String) : RouterState × Option CompleteOut :=
  if auth_type = "aws_sso" then
    ((complete_aws_sso st sid outcome).1, some (complete_aws_sso st sid outcome).2)
  else if auth_type = "cognito" then
    ((complete_cognito st sid outcome).1, some (complete_cognito st sid outcome).2)
  else (st, none)

/-- Modelled from the spec: the source keeps no per-session `authState`, so
the beginAuth edge of the spec's state machine is modelled here: initiating
either flow moves an `UNAUTHENTICATED` session to `PENDING` (the machine's
only beginAuth edge); asking for the options menu initiates nothing and
changes no state. -/
def beginAuthState (st : RouterState) (sid : String) (pref : Option String) : RouterState :=
  if pref = some "aws_account" ∨ pref = some "managed" then
    if stateOf st sid = .unauthenticated then
      { st with auth_states := aset st.auth_states sid .pending }
    else st
  else st

/-- One router operation for a session. -/
inductive AuthOp where
  | begin (sid : String) (pref : Option String)
  | complete (sid : String) (auth_type : String) (outcome : DriverOutcome)

/-- The state change of one router operation. -/
def routerStep (st : RouterState) : AuthOp → RouterState
  | .begin sid pref => beginAuthState st sid pref
  | .complete sid ty outcome => (complete_authentication st sid outcome ty).1

/-- A fresh router: empty session store (`self.user_sessions = {}`). -/
def initialRouterState : RouterState := ⟨[], []⟩

/-- The router state after a sequence of operations from a fresh router. -/
def runAuthOps (ops : List AuthOp) : RouterState :=
  ops.foldl routerStep initialRouterState

/-! ## Deployment Executor
`UnifiedAuthHandler.deploy_to_user_account` (unified_auth.py lines 54-63)
with the two tier-specific deployments of `DeploymentExecutor`
(deployment_executor.py). The external calls attempted against the cloud
provider are returned alongside the result. -/

/-- External provider calls a deployment can attempt. -/
inductive ExtCall where
  | createCloudSession
  | createRuntime
  deriving DecidableEq, Repr

/-- The deployment result dict: success with the created runtime handle, or
the error shape. -/
inductive DeployOut where
  | deployed (agent_runtime_arn : String)
  | err (msg : String)
  deriving DecidableEq, Repr

/-- How the cloud control plane reacts to each runtime-creation call:
the created runtime ARN, or a `ClientError` (code, message). -/
structure DeployEnv where
  createUserRuntimeResult : Except (String × String) String
  createManagedRuntimeResult : Except (String × String) String

/-- `DeploymentExecutor.deploy_to_aws_account` (deployment_executor.py lines
6-39), realizing the `self.deploy_to_aws_account` call of
`deploy_to_user_account`: opens a cloud session with the user's delegated
credentials, then creates the agent runtime there; a provider `ClientError`
is caught and mapped to the error dict. -/
def deploy_to_aws_account (env : DeployEnv) (_ua : UserAuth) (_cfg : AgentConfig) :
    DeployOut × List ExtCall :=
  match env.createUserRuntimeResult with
  | .ok arn => (.deployed arn, [.createCloudSession, .createRuntime])
  | .error e => (.err ("Deployment failed: " ++ PyExc.str (.clientError e.1 e.2)),
                 [.createCloudSession, .createRuntime])

/-- `DeploymentExecutor.deploy_to_managed_environment` (deployment_executor.py
lines 41-73), realizing the `self.deploy_to_managed_environment` call of
`deploy_to_user_account`: creates the runtime on platform-owned
infrastructure under a tenant-namespaced name. -/
def deploy_to_managed_environment (env : DeployEnv) (_ua : UserAuth) (_cfg : AgentConfig) :
    DeployOut × List ExtCall :=
  match env.createManagedRuntimeResult with
  | .ok arn => (.deployed arn, [.createRuntime])
  | .error e => (.err ("Deployment failed: " ++ PyExc.str (.clientError e.1 e.2)),
                 [.createRuntime])

/-- `UnifiedAuthHandler.deploy_to_user_account` (unified_auth.py lines
54-63): looks the session up in `user_sessions`; a missing entry returns the
`{"error": "User not authenticated"}` dict having attempted no external
call; otherwise it dispatches on the stored auth type (`"aws_sso"` → the
user-account deployment, `"cognito"` → the managed deployment); any other
stored type falls off the end of the function (Python `None`). -/
def deploy_to_user_account (env : DeployEnv) (st : RouterState) (sid : String)
    (cfg : AgentConfig) : Option DeployOut × List ExtCall :=
  match alookup st.user_sessions sid with
  | none => (some (.err "User not authenticated"), [])
  | some ua =>
      if ua.type = "aws_sso" then
        (some (deploy_to_aws_account env ua cfg).1, (deploy_to_aws_account env ua cfg).2)
      else if ua.type = "cognito" then
        (some (deploy_to_managed_environment env ua cfg).1,
         (deploy_to_managed_environment env ua cfg).2)
      else (none, [])

/-! ## Platform-level production deployment
`AgentBuilderPlatform.deploy_to_production` and
`AgentBuilderPlatform.deploy_to_user_aws_account`
(agent_builder_platform.py lines 240-289). This deploy surface takes a
deployment target, not a session id: no session store and no authState is
consulted anywhere on it. -/

/-- The deployment-target dict: the target type the dispatch branches on and
the caller-supplied credential bundle the user-account path deploys with. -/
structure DeploymentTarget where
  type : String
  credentials : String
  deriving DecidableEq, Repr

/-- How the cloud control plane reacts to the production runtime-creation
call: the created runtime ARN, or a raised exception. -/
structure ProdDeployEnv where
  createRuntimeResult : Except PyExc String

/-- `AgentBuilderPlatform.deploy_to_user_aws_account` (lines 249-289):
generates production agent code (by model family) and a deployment package —
internal steps with no external call — then opens a cloud session from the
credentials carried by the deployment target and creates the agent runtime
there; any exception is caught by the `except Exception` handler into the
production-deployment-failed error dict. The external calls attempted are
returned alongside the result; no authentication state exists to check. -/
def deploy_to_user_aws_account (env : ProdDeployEnv) (_cfg : AgentConfig)
    (_target : DeploymentTarget) : DeployOut × List ExtCall :=
  match env.createRuntimeResult with
  | .ok arn => (.deployed arn, [.createCloudSession, .createRuntime])
  | .error e => (.err ("Production deployment failed: " ++ PyExc.str e),
                 [.createCloudSession, .createRuntime])

/-- Modelled from the spec: `deploy_to_managed_agentcore` is called by
`deploy_to_production` but not defined under src; per the spec's
`MANAGED_TENANT` tier it creates the runtime on platform-owned infrastructure
(one runtime-creation call, no extra cloud session), with provider faults
mapped to the error result. -/
def deploy_to_managed_agentcore (env : ProdDeployEnv) (_cfg : AgentConfig)
    (_target : DeploymentTarget) : DeployOut × List ExtCall :=
  match env.createRuntimeResult with
  | .ok arn => (.deployed arn, [.createRuntime])
  | .error e => (.err ("Deployment failed: " ++ PyExc.str e), [.createRuntime])

/-- `AgentBuilderPlatform.deploy_to_production` (lines 240-247): routes on the
target's type — `"aws_account"` to the user-account path, `"managed"` to the
managed path, anything else to the invalid-target error dict. No session id
is taken and no authentication state is consulted before dispatching. -/
def deploy_to_production (env : ProdDeployEnv) (cfg : AgentConfig)
    (target : DeploymentTarget) : DeployOut × List ExtCall :=
  if target.type = "aws_account" then deploy_to_user_aws_account env cfg target
  else if target.type = "managed" then deploy_to_managed_agentcore env cfg target
  else (.err "Invalid deployment target", [])

/-! ## beginAuth control surface
`UnifiedAuthHandler.handle_deployment_request` (unified_auth.py lines 12-41)
and the two driver begin steps it dispatches to
(`AWSAuthHandler.initiate_aws_sso_login`, aws_auth_handler.py lines 10-39;
`CognitoAuthHandler.initiate_cognito_login`, cognito_auth_handler.py lines
10-35). -/

/-- The device-authorization challenge fields returned by the provider. -/
structure DeviceAuth where
  deviceCode : String
  userCode : String
  verificationUri : String
  expiresIn : Nat
  deriving DecidableEq, Repr

/-- The statically loaded `cognito_config.json` fields the code reads. -/
structure CognitoConfig where
  domain : String
  client_id : String
  deriving DecidableEq, Repr

/-- How the identity providers react to the begin steps: client registration
and device authorization for the device-code flow (each may fail with a
`ClientError` code and message), and the config load for the hosted-login
flow (which may raise, e.g. when the file is missing). -/
structure BeginEnv where
  registerClientResult : Except (String × String) (String × String)
  deviceAuthResult : Except (String × String) DeviceAuth
  cognitoConfig : Except String CognitoConfig

/-- One entry of the options menu returned when no preference is given. -/
structure MenuOption where
  type : String
  title : String
  description : String
  action : String
  deriving DecidableEq, Repr

/-- The dict returned by a begin step: the device-code challenge, the
hosted-login redirect challenge, the options menu, or an error dict. -/
inductive BeginOut where
  | awsChallenge (device_code user_code verification_uri : String)
      (expires_in : Nat) (message : String)
  | cognitoChallenge (auth_url message : String)
  | menu (message : String) (options : List MenuOption)
  | err (msg : String)
  deriving DecidableEq, Repr

/-- A begin step actually invoked on an identity driver. -/
inductive DriverCall where
  | awsBegin (session_id : String)
  | cognitoBegin (session_id : String)
  deriving DecidableEq, Repr

/-- `AWSAuthHandler.initiate_aws_sso_login`: registers an ephemeral client,
starts device authorization, and returns the challenge dict; a `ClientError`
from either provider call is caught and mapped to the error dict. -/
def initiate_aws_sso_login (env : BeginEnv) (_session_id : String) : BeginOut :=
  match env.registerClientResult with
  | .error e => .err ("AWS SSO setup failed: " ++ PyExc.str (.clientError e.1 e.2))
  | .ok _ =>
      match env.deviceAuthResult with
      | .error e => .err ("AWS SSO setup failed: " ++ PyExc.str (.clientError e.1 e.2))
      | .ok d => .awsChallenge d.deviceCode d.userCode d.verificationUri d.expiresIn
          ("Go to " ++ d.verificationUri ++ " and enter code: " ++ d.userCode)

/-- `CognitoAuthHandler.initiate_cognito_login`: loads the provider config
and builds the hosted-login redirect URL with `state = session_id`; any
exception (e.g. a missing config file) is caught and mapped to the error
dict. -/
def initiate_cognito_login (env : BeginEnv) (session_id : String) : BeginOut :=
  match env.cognitoConfig with
  | .error e => .err ("Cognito setup failed: " ++ e)
  | .ok c => .cognitoChallenge
      (c.domain ++ "/oauth2/authorize?client_id=" ++ c.client_id ++
       "&response_type=code&scope=openid email profile aws.cognito.signin.user.admin" ++
       "&redirect_uri=https://your-app.com/auth/callback&state=" ++ session_id)
      "Sign in with your email to deploy to a managed AWS environment"

/-- The user-account entry of the options menu, verbatim from the source. -/
def awsMenuOption : MenuOption :=
  { type := "aws_account", title := "Deploy to My AWS Account",
    description := "I have an AWS account and want to deploy there",
    action := "aws_sso_login" }

/-- The managed entry of the options menu, verbatim from the source. -/
def managedMenuOption : MenuOption :=
  { type := "managed", title := "Use Managed Deployment",
    description := "Deploy to a managed AWS environment",
    action := "cognito_login" }

/-- `UnifiedAuthHandler.handle_deployment_request`: with preference
`"aws_account"` it invokes the device-code driver's begin step, with
`"managed"` the hosted-login driver's begin step, and otherwise it returns
the two-entry options menu without touching either driver. -/
def handle_deployment_request (env : BeginEnv) (session_id : String)
    (user_preference : Option String) : BeginOut × List DriverCall :=
  if user_preference = some "aws_account" then
    (initiate_aws_sso_login env session_id, [.awsBegin session_id])
  else if user_preference = some "managed" then
    (initiate_cognito_login env session_id, [.cognitoBegin session_id])
  else
    (.menu "Choose your deployment option:" [awsMenuOption, managedMenuOption], [])

/-! ## Concrete instances and stated invariants used by the theorems -/

/-- An environment in which every collaborator call succeeds and the container
run prints `hi there`. -/
def envAllOk : SandboxEnv :=
  { makedirsResult := fun _ => none, writeResult := fun _ => none,
    buildResult := none, runResult := none, waitResult := none,
    logsResult := .ok "hi there", chdirResult := none,
    runCmdResult := fun _ => .ok "hi there" }

/-- An environment in which the managed-runtime CLI binary is missing, so
`subprocess.run` raises `FileNotFoundError` (not `CalledProcessError`). -/
def envMissingCli : SandboxEnv :=
  { envAllOk with
    runCmdResult := fun _ => .error (.fileNotFoundError "No such file or directory: agentcore") }

/-- A concrete container-family descriptor. -/
def cfgOllama : AgentConfig :=
  { name := "a", system_prompt := "s", tools := [], model_type := "ollama",
    model_id := "llama3", user_id := "u" }

/-- A concrete managed-family descriptor. -/
def cfgBedrock : AgentConfig :=
  { name := "a", system_prompt := "s", tools := [], model_type := "bedrock",
    model_id := "claude", user_id := "u" }

/-- A concrete deployment environment in which both runtime creations
succeed. -/
def envDeployOk : DeployEnv :=
  { createUserRuntimeResult := .ok "arn:user-runtime",
    createManagedRuntimeResult := .ok "arn:managed-runtime" }

/-- A concrete production-deployment environment in which the runtime
creation succeeds. -/
def prodEnvOk : ProdDeployEnv := { createRuntimeResult := .ok "arn:prod-runtime" }

/-- An environment in which the Docker image build raises. -/
def envBuildFail : SandboxEnv :=
  { envAllOk with buildResult := some (.dockerError "build failed") }

/-- An environment in which every CLI step exits non-zero, raising
`CalledProcessError`. -/
def envCliExit : SandboxEnv :=
  { envAllOk with runCmdResult := fun _ => .error (.calledProcessError "agentcore") }

/-- A concrete token bundle. -/
def cred0 : Credentials := { access_token := "tok", token_type := "Bearer", expires_in := 3600 }

/-- A concrete principal. -/
def prin0 : Principal := { user_id := "u1", email := "u1@example.com" }

/-- A router state whose session `"s"` is `PENDING`: the state reached from a
fresh router by one beginAuth with the user-account preference. -/
def stPending : RouterState := runAuthOps [.begin "s" (some "aws_account")]

/-- Every session id with an entry in the `user_sessions` store is in the
`AUTHENTICATED` state: entries are created only when a completion stores a
granted token. -/
def SessionStoreInv (st : RouterState) : Prop :=
  ∀ sid, (alookup st.user_sessions sid).isSome → stateOf st sid = .authenticated

end AgentBuilder

namespace AgentBuilder

/-! ## Theorems for the configuration builder and the polling driver -/

/-- C8 counterexample: the claim says `create_agent_config` returns an
`InvalidConfig` error when `modelType` is not one of the two recognized
families, and returns an error rather than raising when a required field is
absent. Neither holds: with every required field present and the unrecognized
`model_type` value `"gpt-4"`, the build succeeds and returns a descriptor; and
with `agent_name` absent, the build raises `KeyError` instead of returning an
error value. -/
theorem create_agent_config_no_validation :
    create_agent_config
      { agent_name := some "a", system_prompt := some "s", tools := none,
        model_type := some "gpt-4", model_id := some "m", user_id := some "u" }
      = .ok { name := "a", system_prompt := "s", tools := [],
              model_type := "gpt-4", model_id := "m", user_id := "u" }
    ∧ create_agent_config
      { agent_name := none, system_prompt := some "s", tools := none,
        model_type := some "bedrock", model_id := some "m", user_id := some "u" }
      = .error (.keyError "agent_name") := by
  constructor <;> rfl

/-- C8 amended: `create_agent_config` reads the five required fields by
direct indexing, raising `KeyError` (an exception, not a returned error value)
at the first absent field, performs no validation of `model_type`, and when
all five fields are present returns the descriptor with the fields copied and
`tools` defaulted — it is a pure function with no side effects. -/
theorem create_agent_config_spec (cfg : RawConfig) :
    (∀ n sp mt mid uid, cfg.agent_name = some n → cfg.system_prompt = some sp →
      cfg.model_type = some mt → cfg.model_id = some mid → cfg.user_id = some uid →
      create_agent_config cfg =
        .ok { name := n, system_prompt := sp, tools := cfg.tools.getD [],
              model_type := mt, model_id := mid, user_id := uid })
    ∧ (cfg.agent_name = none →
        create_agent_config cfg = .error (.keyError "agent_name")) := by
  constructor
  · intro n sp mt mid uid hn hsp hmt hmid huid
    simp [create_agent_config, getItem, hn, hsp, hmt, hmid, huid]
  · intro hn
    simp [create_agent_config, getItem, hn]

/-- Witness for `create_agent_config_spec` at concrete inputs. -/
theorem create_agent_config_spec_witness :
    create_agent_config
      { agent_name := some "a", system_prompt := some "s", tools := some ["t"],
        model_type := some "ollama", model_id := some "m", user_id := some "u" }
      = .ok { name := "a", system_prompt := "s", tools := ["t"],
              model_type := "ollama", model_id := "m", user_id := "u" }
    ∧ create_agent_config
      { agent_name := none, system_prompt := none, tools := none,
        model_type := none, model_id := none, user_id := none }
      = .error (.keyError "agent_name") :=
  ⟨(create_agent_config_spec _).1 "a" "s" "ollama" "m" "u" rfl rfl rfl rfl rfl,
   (create_agent_config_spec _).2 rfl⟩

/-- C5: `test_agent` routes by model family — `"ollama"` takes the
container-sandbox path, `"bedrock"` the managed-sandbox path, and any other
value returns the unsupported-model-type error immediately with the world
untouched, so no sandbox backend is invoked. -/
theorem test_agent_routing (env : SandboxEnv) (cfg : AgentConfig) (p : String) (w : World) :
    (cfg.model_type = "ollama" →
      test_agent env cfg p w =
        (.ok (test_with_ollama_docker env cfg p w).1,
         (test_with_ollama_docker env cfg p w).2))
    ∧ (cfg.model_type = "bedrock" → test_agent env cfg p w = test_with_agentcore env cfg p w)
    ∧ (cfg.model_type ≠ "ollama" → cfg.model_type ≠ "bedrock" →
        test_agent env cfg p w = (.ok (.err "Unsupported model type"), w)) := by
  refine ⟨fun h => ?_, fun h => ?_, fun h1 h2 => ?_⟩
  · simp [test_agent, h]
  · simp [test_agent, h]
  · simp [test_agent, h1, h2]

/-- Witness for `test_agent_routing`, applying each routing case at a concrete
descriptor. -/
theorem test_agent_routing_witness :
    test_agent envAllOk cfgOllama "hello" ⟨"/app", []⟩ =
      (.ok (test_with_ollama_docker envAllOk cfgOllama "hello" ⟨"/app", []⟩).1,
       (test_with_ollama_docker envAllOk cfgOllama "hello" ⟨"/app", []⟩).2)
    ∧ test_agent envAllOk cfgBedrock "hello" ⟨"/app", []⟩ =
        test_with_agentcore envAllOk cfgBedrock "hello" ⟨"/app", []⟩
    ∧ test_agent envAllOk { cfgOllama with model_type := "gpt-4" } "hello" ⟨"/app", []⟩ =
        (.ok (.err "Unsupported model type"), ⟨"/app", []⟩) :=
  ⟨(test_agent_routing envAllOk cfgOllama "hello" ⟨"/app", []⟩).1 rfl,
   (test_agent_routing envAllOk cfgBedrock "hello" ⟨"/app", []⟩).2.1 rfl,
   (test_agent_routing envAllOk { cfgOllama with model_type := "gpt-4" } "hello"
      ⟨"/app", []⟩).2.2 (by decide) (by decide)⟩

/-- C4 counterexample: the claim says no exception of any kind is raised past
the test call on either sandbox path. On the managed path with the CLI binary
missing, `subprocess.run` raises `FileNotFoundError`, which the
`except subprocess.CalledProcessError` handler does not match, so the
exception escapes `test_agent` to the caller. -/
theorem test_agent_uncaught_exception :
    (test_agent envMissingCli cfgBedrock "hello" ⟨"/app", []⟩).1
      = .error (.fileNotFoundError "No such file or directory: agentcore") := by
  rfl

/-- C4 amended: every failure on the container path is caught and converted
to the Ollama-testing-failed error outcome carrying the exception's reason
(and the container path never lets any exception escape); on the managed
path, every process failure that is a `CalledProcessError` is caught and
converted to the AgentCore-testing-failed error outcome carrying the reason
(so nothing escapes when the only failures are process exits) — but
exceptions of other kinds on the managed path propagate past the test call
(see `test_agent_uncaught_exception`). -/
theorem test_agent_fault_conversion (env : SandboxEnv) (cfg : AgentConfig) (p : String)
    (w : World) :
    (cfg.model_type = "ollama" → ∀ e w1,
        ollama_docker_body env cfg p w = (.error e, w1) →
        test_agent env cfg p w
          = (.ok (.err ("Ollama testing failed: " ++ PyExc.str e)), w1))
    ∧ (cfg.model_type = "ollama" → ∃ r w1, test_agent env cfg p w = (.ok r, w1))
    ∧ (cfg.model_type = "bedrock" → ∀ c w1,
        agentcore_body env cfg p w = (.error (.calledProcessError c), w1) →
        test_agent env cfg p w
          = (.ok (.err ("AgentCore testing failed: "
              ++ PyExc.str (.calledProcessError c))), w1))
    ∧ ((∀ cmd e, env.runCmdResult cmd = .error e → ∃ c, e = .calledProcessError c) →
        env.makedirsResult (agentcoreTestDir cfg) = none →
        env.writeResult (agentcoreTestDir cfg ++ "/test_agent.py") = none →
        env.writeResult (agentcoreTestDir cfg ++ "/requirements.txt") = none →
        env.chdirResult = none →
        cfg.model_type = "bedrock" →
        ∃ r w1, test_agent env cfg p w = (.ok r, w1)) := by
  refine ⟨?_, ?_, ?_, ?_⟩
  · intro h e w1 hb
    simp [test_agent, h, test_with_ollama_docker, hb]
  · intro h
    refine ⟨(test_with_ollama_docker env cfg p w).1,
            (test_with_ollama_docker env cfg p w).2, ?_⟩
    simp [test_agent, h]
  · intro h c w1 hb
    simp [test_agent, h, test_with_agentcore, hb]
  · intro hcpe hmk hw1 hw2 hcd hb
    simp only [test_agent, hb, if_neg, if_pos]
    unfold test_with_agentcore agentcore_body
    simp only [hmk, hw1, hw2, hcd, andThen, opUnit, opChdir, opRun, World.log]
    rcases hr1 : env.runCmdResult ["agentcore", "configure", "--entrypoint", "test_agent.py",
        "--name", "test-" ++ cfg.user_id ++ "-" ++ cfg.name] with s1 | e1
    · obtain ⟨c1, rfl⟩ := hcpe _ _ hr1
      simp [hr1]
    · rcases hr2 : env.runCmdResult ["agentcore", "launch"] with s2 | e2
      · obtain ⟨c2, rfl⟩ := hcpe _ _ hr2
        simp [hr1, hr2]
      · rcases hr3 : env.runCmdResult ["agentcore", "invoke", "--prompt", p] with s3 | e3
        · obtain ⟨c3, rfl⟩ := hcpe _ _ hr3
          simp [hr1, hr2, hr3]
        · simp [hr1, hr2, hr3]

/-- Witness for `test_agent_fault_conversion`: a failed image build converted
to the Ollama error dict, the all-success container run never escaping, a
non-zero CLI exit converted to the AgentCore error dict, and the managed case
in an environment whose only failures are `CalledProcessError`. -/
theorem test_agent_fault_conversion_witness :
    test_agent envBuildFail cfgOllama "hello" ⟨"/app", []⟩
      = (.ok (.err ("Ollama testing failed: " ++ PyExc.str (.dockerError "build failed"))),
         (ollama_docker_body envBuildFail cfgOllama "hello" ⟨"/app", []⟩).2)
    ∧ (∃ r w1, test_agent envAllOk cfgOllama "hello" ⟨"/app", []⟩ = (.ok r, w1))
    ∧ test_agent envCliExit cfgBedrock "hello" ⟨"/app", []⟩
      = (.ok (.err ("AgentCore testing failed: "
            ++ PyExc.str (.calledProcessError "agentcore"))),
         (agentcore_body envCliExit cfgBedrock "hello" ⟨"/app", []⟩).2)
    ∧ (∃ r w1, test_agent envCliExit cfgBedrock "hello" ⟨"/app", []⟩ = (.ok r, w1)) :=
  ⟨(test_agent_fault_conversion envBuildFail cfgOllama "hello" ⟨"/app", []⟩).1 rfl
      (.dockerError "build failed") _ rfl,
   (test_agent_fault_conversion envAllOk cfgOllama "hello" ⟨"/app", []⟩).2.1 rfl,
   (test_agent_fault_conversion envCliExit cfgBedrock "hello" ⟨"/app", []⟩).2.2.1 rfl
      "agentcore" _ rfl,
   (test_agent_fault_conversion envCliExit cfgBedrock "hello" ⟨"/app", []⟩).2.2.2
      (fun _ e he => ⟨"agentcore", by cases he; rfl⟩) rfl rfl rfl rfl rfl⟩

/-- C3 counterexample: the claim says the built image and the container are
removed exactly once on every exit path of the container-sandbox test. On a
fully successful run the call's action trace contains zero removal actions:
the code never calls an image or container removal, it only passes `rm=True`
to the build and `remove=True` to the run. -/
theorem ollama_docker_no_teardown_on_success :
    (test_with_ollama_docker envAllOk cfgOllama "hello" ⟨"/app", []⟩).1
        = .ok "hi there" "ollama_docker" "llama3"
    ∧ List.countP Action.isRemoval
        (test_with_ollama_docker envAllOk cfgOllama "hello" ⟨"/app", []⟩).2.trace = 0 := by
  constructor <;> rfl

/-- C3 amended: on every exit path of the container-sandbox test — success,
run failure, or an exception during build or run — the call itself removes
neither the image nor the container (its trace gains no removal action);
teardown is delegated to the flags it passes, and every build it attempts
carries `rm=True` and every run carries `remove=True` (its trace gains no
flag-violating action either). -/
theorem ollama_docker_teardown_delegated (env : SandboxEnv) (cfg : AgentConfig)
    (p : String) (w : World) :
    List.countP Action.isRemoval (test_with_ollama_docker env cfg p w).2.trace
      = List.countP Action.isRemoval w.trace
    ∧ List.countP Action.violatesTeardownFlags (test_with_ollama_docker env cfg p w).2.trace
      = List.countP Action.violatesTeardownFlags w.trace := by
  unfold test_with_ollama_docker ollama_docker_body
  cases env.makedirsResult (ollamaTestDir cfg) <;>
  cases env.writeResult (ollamaTestDir cfg ++ "/test_agent.py") <;>
  cases env.writeResult (ollamaTestDir cfg ++ "/Dockerfile") <;>
  cases env.buildResult <;>
  cases env.runResult <;>
  cases env.waitResult <;>
  cases env.logsResult <;>
  simp [andThen, opUnit, opLogs, World.log, List.countP_append, List.countP_cons,
        Action.isRemoval, Action.violatesTeardownFlags]

/-- C9: the managed-sandbox test path changes the process-wide working
directory to the per-user scratch directory and never restores it: whenever
the scratch-directory setup succeeds, then whatever the three CLI steps do —
succeed, fail with a caught process error, or raise an uncaught exception —
the working directory after the call is the scratch directory, which differs
from what it was before the call. -/
theorem agentcore_chdir_outlives_call (env : SandboxEnv) (cfg : AgentConfig) (p : String)
    (w : World)
    (hmk : env.makedirsResult (agentcoreTestDir cfg) = none)
    (hw1 : env.writeResult (agentcoreTestDir cfg ++ "/test_agent.py") = none)
    (hw2 : env.writeResult (agentcoreTestDir cfg ++ "/requirements.txt") = none)
    (hcd : env.chdirResult = none)
    (hne : w.cwd ≠ agentcoreTestDir cfg) :
    (test_with_agentcore env cfg p w).2.cwd = agentcoreTestDir cfg
    ∧ (test_with_agentcore env cfg p w).2.cwd ≠ w.cwd := by
  have hmain : (test_with_agentcore env cfg p w).2.cwd = agentcoreTestDir cfg := by
    unfold test_with_agentcore agentcore_body
    simp only [hmk, hw1, hw2, hcd, andThen, opUnit, opChdir, opRun, World.log]
    rcases env.runCmdResult ["agentcore", "configure", "--entrypoint", "test_agent.py",
        "--name", "test-" ++ cfg.user_id ++ "-" ++ cfg.name] with e1 | s1
    · cases e1 <;> simp
    · rcases env.runCmdResult ["agentcore", "launch"] with e2 | s2
      · cases e2 <;> simp
      · rcases env.runCmdResult ["agentcore", "invoke", "--prompt", p] with e3 | s3
        · cases e3 <;> simp
        · simp
  exact ⟨hmain, by rw [hmain]; exact fun hh => hne hh.symm⟩

/-! ## Router invariant: the session store holds only authenticated sessions -/

/-- Shadowing update then lookup on an association list. -/
theorem alookup_aset (l : List (String × α)) (k k1 : String) (v : α) :
    alookup (aset l k v) k1 = if k = k1 then some v else alookup l k1 := rfl

/-- The driver completions preserve the session-store invariant. -/
theorem completeDriver_inv (ty : String) (st : RouterState) (sid : String)
    (o : DriverOutcome) (h : SessionStoreInv st) :
    SessionStoreInv (completeDriver ty st sid o).1 := by
  cases o with
  | granted c p =>
    simp only [completeDriver]
    split
    · intro sid1 hs1
      simp only [stateOf, stOf, alookup_aset] at hs1 ⊢
      by_cases he : sid = sid1
      · simp [he]
      · simp only [if_neg he] at hs1 ⊢
        exact h sid1 hs1
    · exact h
  | pending => exact h
  | denied r =>
    simp only [completeDriver]
    split
    · rename_i hg
      intro sid1 hs1
      have hst := h sid1 hs1
      simp only [stateOf, stOf, alookup_aset] at hg hst ⊢
      by_cases he : sid = sid1
      · subst he
        rw [hst] at hg
        cases hg
      · simp only [if_neg he]
        exact hst
    · exact h

/-- One router operation preserves the session-store invariant. -/
theorem routerStep_inv (st : RouterState) (op : AuthOp) (h : SessionStoreInv st) :
    SessionStoreInv (routerStep st op) := by
  cases op with
  | begin sid pref =>
    simp only [routerStep, beginAuthState]
    split
    · split
      · rename_i hg
        intro sid1 hs1
        have hst := h sid1 hs1
        simp only [stateOf, stOf, alookup_aset] at hg hst ⊢
        by_cases he : sid = sid1
        · subst he
          rw [hst] at hg
          cases hg
        · simp only [if_neg he]
          exact hst
      · exact h
    · exact h
  | complete sid ty o =>
    simp only [routerStep, complete_authentication]
    split
    · exact completeDriver_inv "aws_sso" st sid o h
    · split
      · exact completeDriver_inv "cognito" st sid o h
      · exact h

/-- A fresh router satisfies the session-store invariant. -/
theorem initialRouterState_inv : SessionStoreInv initialRouterState := by
  intro sid hs
  simp [initialRouterState, alookup] at hs

/-- Every reachable router state satisfies the session-store invariant. -/
theorem runAuthOps_inv (ops : List AuthOp) : SessionStoreInv (runAuthOps ops) := by
  have hall : ∀ st, SessionStoreInv st → SessionStoreInv (ops.foldl routerStep st) := by
    induction ops with
    | nil => exact fun st h => h
    | cons op t ih => exact fun st h => ih _ (routerStep_inv st op h)
  exact hall _ initialRouterState_inv

/-- Witness for `agentcore_chdir_outlives_call` at a concrete descriptor in
the all-success environment. -/
theorem agentcore_chdir_outlives_call_witness :
    (test_with_agentcore envAllOk cfgBedrock "hello" ⟨"/app", []⟩).2.cwd
        = agentcoreTestDir cfgBedrock
    ∧ (test_with_agentcore envAllOk cfgBedrock "hello" ⟨"/app", []⟩).2.cwd ≠ "/app" :=
  agentcore_chdir_outlives_call envAllOk cfgBedrock "hello" ⟨"/app", []⟩
    rfl rfl rfl rfl (by decide)

/-- C6: the polling driver's result is determined by the provider's response
to `create_token`: a granted token maps to the token dict carrying
`access_token`, `token_type` and `expires_in`; the provider's
`AuthorizationPendingException` condition maps to the pending value, not an
error; any other provider-side error response is caught and mapped to an
error value carrying the reason; in particular no provider response makes the
driver raise. -/
theorem poll_for_aws_token_provider_cases :
    (∀ a t e, poll_for_aws_token (.granted a t e) = .ok (.token a t e))
    ∧ (∀ m, poll_for_aws_token (.providerError "AuthorizationPendingException" m)
        = .ok .pending)
    ∧ (∀ code m, code ≠ "AuthorizationPendingException" →
        poll_for_aws_token (.providerError code m)
          = .ok (.err (PyExc.str (.clientError code m)))) := by
  refine ⟨fun a t e => rfl, fun m => rfl, fun code m h => ?_⟩
  simp [poll_for_aws_token, h]

/-- C1 counterexample: the claim covers every deployment call, but the
platform-level `deploy_to_production` consults no session or authState at
all: with no authenticated session anywhere in existence, a `USER_ACCOUNT`
target (`"aws_account"`) proceeds to the cloud-session-creation and
runtime-creation calls and returns a success dict — not a not-authenticated
error — so the claim is false on that cited deploy surface. -/
theorem deploy_to_production_no_auth_check :
    deploy_to_production prodEnvOk cfgBedrock { type := "aws_account", credentials := "creds" }
      = (.deployed "arn:prod-runtime", [.createCloudSession, .createRuntime]) := by
  rfl

/-- C1 amended: on the session-keyed deploy surface
(`deploy_to_user_account`), in every reachable router state, deploying for a
session id whose authState is not `AUTHENTICATED` — including a session id
never seen — returns the not-authenticated error dict and attempts zero
external provider calls (no cloud session creation, no runtime creation); the
platform-level `deploy_to_production`, by contrast, performs no
authentication check: it takes no session, and every `"aws_account"`-target
call attempts the cloud-session-creation and runtime-creation calls
regardless. -/
theorem deploy_requires_authenticated (ops : List AuthOp) (sid : String)
    (cfg : AgentConfig) (env : DeployEnv) (penv : ProdDeployEnv)
    (pcfg : AgentConfig) (target : DeploymentTarget)
    (h : stateOf (runAuthOps ops) sid ≠ .authenticated) :
    deploy_to_user_account env (runAuthOps ops) sid cfg
      = (some (.err "User not authenticated"), [])
    ∧ (target.type = "aws_account" →
        (deploy_to_production penv pcfg target).2 = [.createCloudSession, .createRuntime]) := by
  constructor
  · have hnone : alookup (runAuthOps ops).user_sessions sid = none := by
      cases hh : alookup (runAuthOps ops).user_sessions sid with
      | none => rfl
      | some ua => exact absurd (runAuthOps_inv ops sid (by simp [hh])) h
    simp [deploy_to_user_account, hnone]
  · intro ht
    cases hcr : penv.createRuntimeResult <;>
      simp [deploy_to_production, deploy_to_user_aws_account, ht, hcr]

/-- Witness for `deploy_requires_authenticated`: a session id in the `PENDING`
state (after one beginAuth) and a never-seen session id both get the
not-authenticated error with zero external calls, while the platform-level
production deploy attempts both external calls for a concrete user-account
target. -/
theorem deploy_requires_authenticated_witness :
    deploy_to_user_account envDeployOk (runAuthOps [.begin "s" (some "aws_account")]) "s"
        cfgBedrock = (some (.err "User not authenticated"), [])
    ∧ deploy_to_user_account envDeployOk (runAuthOps []) "t" cfgBedrock
        = (some (.err "User not authenticated"), [])
    ∧ (deploy_to_production prodEnvOk cfgBedrock
        { type := "aws_account", credentials := "creds" }).2
        = [.createCloudSession, .createRuntime] :=
  ⟨(deploy_requires_authenticated [.begin "s" (some "aws_account")] "s" cfgBedrock envDeployOk
      prodEnvOk cfgBedrock { type := "aws_account", credentials := "creds" } (by decide)).1,
   (deploy_requires_authenticated [] "t" cfgBedrock envDeployOk
      prodEnvOk cfgBedrock { type := "aws_account", credentials := "creds" } (by decide)).1,
   (deploy_requires_authenticated [] "t" cfgBedrock envDeployOk
      prodEnvOk cfgBedrock { type := "aws_account", credentials := "creds" } (by decide)).2
     rfl⟩

/-- C2: completeAuth delegates to the driver matching the auth type and
drives the per-session state machine: from `PENDING`, a granted token
transitions the session to `AUTHENTICATED` and stores credentials and
principal under the session id; a denied/error outcome transitions the
session to `FAILED`; a pending outcome changes nothing, and any number of
repeated pending polls leaves the session at `PENDING` — never spuriously
`AUTHENTICATED` or `FAILED`. -/
theorem complete_auth_state_machine (st : RouterState) (sid ty : String)
    (c : Credentials) (p : Principal) (r : String) (n : Nat)
    (hty : ty = "aws_sso" ∨ ty = "cognito")
    (hp : stateOf st sid = .pending) :
    ((complete_authentication st sid (.granted c p) ty).2 = some (.authenticated c p)
      ∧ stateOf (complete_authentication st sid (.granted c p) ty).1 sid = .authenticated
      ∧ alookup (complete_authentication st sid (.granted c p) ty).1.user_sessions sid
          = some ⟨ty, c, p⟩)
    ∧ ((complete_authentication st sid (.denied r) ty).2 = some (.failed r)
      ∧ stateOf (complete_authentication st sid (.denied r) ty).1 sid = .failed)
    ∧ ((complete_authentication st sid .pending ty).1 = st
      ∧ (complete_authentication st sid .pending ty).2 = some .pending
      ∧ stateOf (Nat.iterate (fun s => (complete_authentication s sid .pending ty).1) n st)
          sid = .pending) := by
  have hp2 : (alookup st.auth_states sid).getD AuthState.unauthenticated
      = AuthState.pending := hp
  have hone : ∀ s1 : RouterState, (complete_authentication s1 sid .pending ty).1 = s1 := by
    rcases hty with rfl | rfl <;> intro s1 <;>
      simp [complete_authentication, complete_aws_sso, complete_cognito, completeDriver]
  have hiter : Nat.iterate (fun s => (complete_authentication s sid .pending ty).1) n st
      = st := by
    induction n with
    | zero => rfl
    | succ m ih => rw [Function.iterate_succ_apply, hone, ih]
  refine ⟨⟨?_, ?_, ?_⟩, ⟨?_, ?_⟩, ?_, ?_, ?_⟩
  all_goals try (rw [hiter]; exact hp)
  all_goals rcases hty with rfl | rfl
  all_goals simp [complete_authentication, complete_aws_sso, complete_cognito, completeDriver,
    stateOf, stOf, alookup_aset, hp2]

/-- Witness for `complete_auth_state_machine` at the concrete `PENDING`
session `"s"` of `stPending`, the device-code auth type, and three pending
polls. -/
theorem complete_auth_state_machine_witness :
    ((complete_authentication stPending "s" (.granted cred0 prin0) "aws_sso").2
        = some (.authenticated cred0 prin0)
      ∧ stateOf (complete_authentication stPending "s" (.granted cred0 prin0) "aws_sso").1 "s"
          = .authenticated
      ∧ alookup (complete_authentication stPending "s"
            (.granted cred0 prin0) "aws_sso").1.user_sessions "s"
          = some ⟨"aws_sso", cred0, prin0⟩)
    ∧ ((complete_authentication stPending "s" (.denied "denied") "aws_sso").2
        = some (.failed "denied")
      ∧ stateOf (complete_authentication stPending "s" (.denied "denied") "aws_sso").1 "s"
          = .failed)
    ∧ ((complete_authentication stPending "s" .pending "aws_sso").1 = stPending
      ∧ (complete_authentication stPending "s" .pending "aws_sso").2 = some .pending
      ∧ stateOf (Nat.iterate
            (fun s => (complete_authentication s "s" .pending "aws_sso").1) 3 stPending) "s"
          = .pending) :=
  complete_auth_state_machine stPending "s" "aws_sso" cred0 prin0 "denied" 3
    (Or.inl rfl) (by decide)

/-- C7: beginAuth with no preference returns the options menu holding exactly
the two flow descriptors (user-account and managed, each with its title,
description and action tag) and invokes neither driver; beginAuth with the
user-account preference invokes exactly the device-code driver's begin step,
and with the managed preference exactly the hosted-login driver's begin
step. -/
theorem begin_auth_menu_and_dispatch (env : BeginEnv) (sid : String) :
    handle_deployment_request env sid none
      = (.menu "Choose your deployment option:" [awsMenuOption, managedMenuOption], [])
    ∧ handle_deployment_request env sid (some "aws_account")
        = (initiate_aws_sso_login env sid, [.awsBegin sid])
    ∧ handle_deployment_request env sid (some "managed")
        = (initiate_cognito_login env sid, [.cognitoBegin sid]) := by
  refine ⟨?_, ?_, ?_⟩ <;> simp [handle_deployment_request]

/-- C10: completeAuth with an auth type that is neither `"aws_sso"` nor
`"cognito"` falls off the end of the function and returns Python `None` — no
typed failed value, no error envelope — and changes no session state. -/
theorem complete_auth_unknown_type_returns_none (st : RouterState) (sid : String)
    (outcome : DriverOutcome) (ty : String)
    (h1 : ty ≠ "aws_sso") (h2 : ty ≠ "cognito") :
    complete_authentication st sid outcome ty = (st, none) := by
  simp [complete_authentication, h1, h2]

/-- Witness for `complete_auth_unknown_type_returns_none` at the auth type
`"basic"` on the concrete pending state. -/
theorem complete_auth_unknown_type_returns_none_witness :
    complete_authentication stPending "s" (.granted cred0 prin0) "basic"
      = (stPending, none) :=
  complete_auth_unknown_type_returns_none stPending "s" (.granted cred0 prin0) "basic"
    (by decide) (by decide)

/-- Witness for `poll_for_aws_token_provider_cases` at concrete responses. -/
theorem poll_for_aws_token_provider_cases_witness :
    poll_for_aws_token (.granted "at" "Bearer" 3600) = .ok (.token "at" "Bearer" 3600)
    ∧ poll_for_aws_token (.providerError "AuthorizationPendingException" "p")
        = .ok .pending
    ∧ poll_for_aws_token (.providerError "AccessDeniedException" "d")
        = .ok (.err (PyExc.str (.clientError "AccessDeniedException" "d"))) :=
  ⟨poll_for_aws_token_provider_cases.1 "at" "Bearer" 3600,
   poll_for_aws_token_provider_cases.2.1 "p",
   poll_for_aws_token_provider_cases.2.2 "AccessDeniedException" "d" (by decide)⟩

end AgentBuilder
